import Mathlib

/-!
Shallow embedding of the flow-sentinel repository (src/backend/app.py and
src/frontend/app.py) and proofs about its specification claims.

The backend synthesizes telemetry rows into a time-series store over an
ILP (line-protocol) sender, exposes two HTTP endpoints, runs a startup
schema-initialization retry loop and a daily partition-cleanup cron job.
The frontend dashboard queries the store for a selected day and renders
KPIs, a chart and a PDF download control.
-/

namespace FlowSentinel

/-- Nanoseconds per day (timestamps are wall-clock nanoseconds,
matching `TimestampNanos`). -/
def nsPerDay : Nat := 86400000000000

/-- Nanoseconds per hour. -/
def nsPerHour : Nat := 3600000000000

/-- A row of the `metrics` relation: `(val DOUBLE, ts TIMESTAMP)`.
Values are modelled as rationals. -/
structure MetricRow where
  val : Rat
  ts : Nat
  deriving DecidableEq, Repr

/-- A row of the `pulse` relation: `(status, ts)`. -/
structure PulseRow where
  status : Int
  ts : Nat
  deriving DecidableEq, Repr

/-- A row of the `events` relation: `(message, ts)`. -/
structure EventRow where
  message : String
  ts : Nat
  deriving DecidableEq, Repr

/-- The three time-series relations of the storage engine. -/
structure Store where
  metrics : List MetricRow
  pulse : List PulseRow
  events : List EventRow
  deriving DecidableEq, Repr

/-- A record emitted through the logging pipeline (console + Loki handler). -/
structure LogRecord where
  level : String
  msg : String
  deriving DecidableEq, Repr

/-- JSON response body of the `/event/{msg}` endpoint. -/
structure EventResponse where
  status : String
  message : String
  destination : String
  deriving DecidableEq, Repr

/-- Embedding of `log_event` (src/backend/app.py lines 125-134).
The handler calls `logger.info(f"EVENT: {msg}", ...)` — a log record routed
to Loki — and returns a JSON body; it performs no write to the storage
engine.  Logging is total here, so only the `try` branch is reachable.
Returns the (unchanged) store, the extended log, and the response. -/
def log_event (msg : String) (st : Store) (log : List LogRecord) :
    Store × List LogRecord × EventResponse :=
  (st,
   log ++ [{ level := "INFO", msg := "EVENT: " ++ msg }],
   { status := "captured", message := msg, destination := "loki" })

/-- A buffered ILP row: `sender.row(table, columns=..., at=ts)`. -/
structure IlpRow where
  table : String
  columns : List (String × Rat)
  ts : Nat
  deriving DecidableEq, Repr

/-- State of the global ILP `quest_sender`: rows buffered but not yet
flushed, and rows already sent to the storage engine. -/
structure SenderState where
  buffer : List IlpRow
  sent : List IlpRow
  deriving DecidableEq, Repr

/-- `quest_sender.row(table, columns=cols, at=ts)`: append to the buffer. -/
def senderRow (table : String) (cols : List (String × Rat)) (ts : Nat)
    (s : SenderState) : SenderState :=
  { s with buffer := s.buffer ++ [{ table := table, columns := cols, ts := ts }] }

/-- `quest_sender.flush()`: move all buffered rows to the store. -/
def senderFlush (s : SenderState) : SenderState :=
  { buffer := [], sent := s.sent ++ s.buffer }

/-- One iteration of the `worker` loop body (src/backend/app.py lines 82-90):
capture `now` once, draw `val`, submit one metrics row and one pulse row
both at `now`, then flush. -/
def workerTick (now : Nat) (val : Rat) (s : SenderState) : SenderState :=
  senderFlush
    (senderRow "pulse" [("status", (1 : Rat))] now
      (senderRow "metrics" [("val", val)] now s))

/-- The metrics row submitted by a tick. -/
def tickMetricRow (now : Nat) (val : Rat) : IlpRow :=
  { table := "metrics", columns := [("val", val)], ts := now }

/-- The pulse row submitted by a tick. -/
def tickPulseRow (now : Nat) : IlpRow :=
  { table := "pulse", columns := [("status", (1 : Rat))], ts := now }

/-- Environment input of one iteration of the `while True` loop of `worker`:
either a successful tick (the captured `now` and the drawn `val`), or an
exception raised by the write/flush calls of that iteration. -/
inductive TickInput where
  | ok (now : Nat) (val : Rat)
  | raise (e : String)
  deriving DecidableEq, Repr

/-- Embedding of the `worker` function (src/backend/app.py lines 78-92):
the `while True` loop runs over a (finite prefix of the) stream of tick
inputs; the whole loop body sits inside one `try`, so the first raised
exception is caught, logged as a crash, and the function returns —
no later tick input is ever consumed. -/
def runWorker (ticks : List TickInput) (s : SenderState) (log : List LogRecord) :
    SenderState × List LogRecord :=
  match ticks with
  | [] => (s, log)
  | TickInput.ok now val :: rest => runWorker rest (workerTick now val s) log
  | TickInput.raise e :: _ =>
      (s, log ++ [{ level := "ERROR", msg := "INGRESS: Worker crashed. Reason: " ++ e }])

/-- Fold a list of successful tick inputs through `workerTick`. -/
def applyTicks (pre : List (Nat × Rat)) (s : SenderState) : SenderState :=
  match pre with
  | [] => s
  | (now, val) :: rest => applyTicks rest (workerTick now val s)

/-- Day-partition start of a timestamp (daily partitioning by the
designated timestamp column). -/
def dayFloor (ts : Nat) : Nat := ts / nsPerDay * nsPerDay

/-- Retention horizon of `daily_cleanup`: `now() - 7d` (Nat subtraction:
zero when `now` is within the first week of the epoch). -/
def retentionCutoff (now : Nat) : Nat := now - 7 * nsPerDay

/-- `ALTER TABLE metrics DROP PARTITION WHERE ts < now() - 7d;`
(src/backend/app.py line 52): drops the whole day partitions whose
partition timestamp is older than the horizon.  A row survives iff its
day-partition start is at or after the cutoff. -/
def dropOldMetricPartitions (now : Nat) (rows : List MetricRow) : List MetricRow :=
  rows.filter (fun r => retentionCutoff now ≤ dayFloor r.ts)

/-- Outcome of the single `psycopg.connect` attempt a cleanup run makes. -/
inductive ConnOutcome where
  | ok
  | err (e : String)
  deriving DecidableEq, Repr

/-- Embedding of `daily_cleanup` (src/backend/app.py lines 46-55): one
connection attempt; on success the partition-drop statement runs on the
`metrics` relation only; any exception is caught and logged as a failure.
Returns the store, the log records of the run, and the number of
connection attempts made (always one — no retry within a run). -/
def daily_cleanup (conn : ConnOutcome) (now : Nat) (st : Store) :
    Store × List LogRecord × Nat :=
  let start : LogRecord :=
    { level := "INFO",
      msg := "MAINTENANCE: Starting scheduled partition cleanup (Retention: 7 days)." }
  match conn with
  | ConnOutcome.ok =>
      ({ st with metrics := dropOldMetricPartitions now st.metrics },
       [start, { level := "INFO", msg := "MAINTENANCE: Cleanup successful." }], 1)
  | ConnOutcome.err e =>
      (st,
       [start, { level := "ERROR", msg := "MAINTENANCE: Cleanup failed. Reason: " ++ e }], 1)

/-- Fire times of the `BackgroundScheduler` cron job
(`scheduler.add_job(daily_cleanup, "cron", hour=0, minute=0)`): midnight
of day `n`, i.e. once per day. -/
def cronFireTime (n : Nat) : Nat := n * nsPerDay

/-- Schema objects held by the storage engine, as far as `init_db`
touches them: the set of existing tables (in creation order) and whether
`metrics` has been switched to the WAL-bypass durability mode. -/
structure Schema where
  tables : List String
  metricsWalBypass : Bool
  deriving DecidableEq, Repr

/-- `CREATE TABLE IF NOT EXISTS metrics (...) TIMESTAMP(ts) PARTITION BY DAY;`
never errors: it creates the table only when absent. -/
def createTableIfNotExists (name : String) (s : Schema) : Except String Schema :=
  if name ∈ s.tables then Except.ok s
  else Except.ok { s with tables := s.tables ++ [name] }

/-- `ALTER TABLE metrics SET TYPE BYPASS WAL;` — errors when the table is
missing (it never is here, since it runs right after the create). -/
def alterMetricsBypassWal (s : Schema) : Except String Schema :=
  if "metrics" ∈ s.tables then Except.ok { s with metricsWalBypass := true }
  else Except.error "table does not exist: metrics"

/-- The statements `init_db` issues inside one successful connection
(src/backend/app.py lines 65-70). -/
def initStatements (s : Schema) : Except String Schema :=
  (createTableIfNotExists "metrics" s).bind alterMetricsBypassWal

/-- `time.sleep(2)` between failed connection attempts of `init_db`. -/
def retryDelaySeconds : Nat := 2

/-- The retry loop of `init_db` (src/backend/app.py lines 58-75), started
at attempt index `k`: try to connect; on success run the init statements
and break, on failure sleep 2 seconds and loop.  `avail j` tells whether
the `j`-th connection attempt succeeds; `fuel` bounds how many iterations
we unfold (the real loop has no bound).  Returns the resulting schema and
the index of the successful attempt, or `none` when the fuel runs out
without a successful connection. -/
def init_db_from (avail : Nat → Bool) (s : Schema) :
    Nat → Nat → Option (Schema × Nat × Nat)
  | 0, _ => none
  | fuel + 1, k =>
      if avail k then
        match initStatements s with
        | Except.ok s' => some (s', k, 0)
        | Except.error _ =>
            match init_db_from avail s fuel (k + 1) with
            | some (s', k', t) => some (s', k', retryDelaySeconds + t)
            | none => none
      else
        match init_db_from avail s fuel (k + 1) with
        | some (s', k', t) => some (s', k', retryDelaySeconds + t)
        | none => none

/-- `init_db`: the retry loop started at attempt 0.  On success within
`fuel` iterations, returns the resulting schema, the index of the
successful connection attempt, and the total seconds slept across the
failed attempts. -/
def init_db (fuel : Nat) (avail : Nat → Bool) (s : Schema) :
    Option (Schema × Nat × Nat) :=
  init_db_from avail s fuel 0

/-- The startup actions of `lifespan` (src/backend/app.py lines 95-114),
in program order: `init_db()` runs to completion first, then the ILP
sender context is opened, the cleanup scheduler started, the worker
thread launched, and only then does the app start serving. -/
inductive StartupStep where
  | initDb
  | openSender
  | startScheduler
  | startWorker
  | serve
  deriving DecidableEq, Repr

/-- The order in which `lifespan` performs its startup steps. -/
def lifespanStartup : List StartupStep :=
  [StartupStep.initDb, StartupStep.openSender, StartupStep.startScheduler,
   StartupStep.startWorker, StartupStep.serve]

/-! ## Dashboard (src/frontend/app.py) -/

/-- A row of the selected-day query result: one hourly bucket
`(ts = timestamp_floor('1h', ts), hourly_val = sum(val))`. -/
structure HourRow where
  ts : Nat
  hourly_val : Rat
  deriving DecidableEq, Repr

/-- Hour-bucket floor of a timestamp: `timestamp_floor('1h', ts)`. -/
def hourFloor (ts : Nat) : Nat := ts / nsPerHour * nsPerHour

/-- `ts BETWEEN a AND b` — inclusive on both ends. -/
def inRange (a b ts : Nat) : Bool := a ≤ ts && ts ≤ b

/-- The selected-day query (src/frontend/app.py lines 172-178) evaluated
against the `metrics` relation: select the rows whose timestamp lies in
the inclusive window `[a, b]`, group them by hour bucket (`SAMPLE BY 1h`,
buckets in order of first appearance) and sum each bucket's values. -/
def dayQuery (a b : Nat) (rows : List MetricRow) : List HourRow :=
  (((rows.filter (fun r => inRange a b r.ts)).map (fun r => hourFloor r.ts)).dedup).map
    (fun h =>
      { ts := h,
        hourly_val :=
          (((rows.filter (fun r => inRange a b r.ts)).filter
              (fun r => hourFloor r.ts == h)).map (fun r => r.val)).sum })

/-- `fetch_data` (src/frontend/app.py lines 45-52): run the query; on any
exception show a `st.error` banner and return an empty DataFrame.
`qres` is the outcome of `pl.read_database`; the second component is the
list of error banners rendered. -/
def fetch_data (qres : Except String (List HourRow)) :
    List HourRow × List String :=
  match qres with
  | Except.ok df => (df, [])
  | Except.error e => ([], ["Database Error: " ++ e])

/-- What the selected-day section of the dashboard page renders. -/
structure DashboardView where
  kpiTotal : Option String
  kpiAverage : Option String
  kpiPeak : Option String
  chart : Bool
  pdfTotal : Option Rat
  banners : List String
  infoMsg : Bool
  deriving DecidableEq, Repr

/-- Rendering of the selected-day section (src/frontend/app.py lines
180-219).  Non-empty result: compute `total_prod` as the sum of the
`hourly_val` column, render the bar chart and the PDF download section
(whose report carries `Total Production = total_prod`); no KPI metric
cards are shown in this branch.  Empty result: the zero-state fallback —
three metric cards reading "0.00", an info message, no chart and no PDF
control. -/
def renderDay (df : List HourRow) (banners : List String) : DashboardView :=
  if df.isEmpty then
    { kpiTotal := some "0.00", kpiAverage := some "0.00", kpiPeak := some "0.00",
      chart := false, pdfTotal := none, banners := banners, infoMsg := true }
  else
    { kpiTotal := none, kpiAverage := none, kpiPeak := none,
      chart := true, pdfTotal := some ((df.map (fun r => r.hourly_val)).sum),
      banners := banners, infoMsg := false }

/-- The selected-day pipeline: fetch, then render. -/
def selectedDayView (qres : Except String (List HourRow)) : DashboardView :=
  let fd := fetch_data qres
  renderDay fd.1 fd.2

/-! ## Theorems -/

/-- C1 counterexample: calling the manual-event endpoint on an empty store
leaves the store — in particular the `events` relation — completely
unchanged, so the number of new event rows is 0, not 1.  The handler only
emits a log record routed to Loki. -/
theorem C1_counterexample :
    (log_event "alert" { metrics := [], pulse := [], events := [] } []).1 =
      { metrics := [], pulse := [], events := [] } ∧
    ((log_event "alert" { metrics := [], pulse := [], events := [] } []).1).events.length = 0 :=
  ⟨rfl, rfl⟩

/-- C1 (amended): the manual-event endpoint `GET /event/{msg}` persists no
row in the storage engine; it appends exactly one log record (routed to
Loki) whose message embeds `msg`, and returns the JSON body
`{status: "captured", message: msg, destination: "loki"}`. -/
theorem C1_event_logged_not_persisted (msg : String) (st : Store) (log : List LogRecord) :
    (log_event msg st log).1 = st ∧
    (log_event msg st log).2.1 = log ++ [{ level := "INFO", msg := "EVENT: " ++ msg }] ∧
    (log_event msg st log).2.2 =
      { status := "captured", message := msg, destination := "loki" } :=
  ⟨rfl, rfl, rfl⟩

/-- C3: one tick of the worker loop submits exactly one metrics row and
exactly one pulse row — the only rows appended to the sent stream — both
carrying the same timestamp `now` captured once at the start of the tick,
and ends with a flush that empties the buffer. -/
theorem C3_tick_pairs_metric_pulse (now : Nat) (val : Rat) (s : SenderState) :
    (workerTick now val s).sent =
      s.sent ++ s.buffer ++ [tickMetricRow now val, tickPulseRow now] ∧
    (workerTick now val s).buffer = [] := by
  refine ⟨?_, rfl⟩
  simp [workerTick, senderFlush, senderRow, tickMetricRow, tickPulseRow]

/-- C7: the worker is fail-stop.  If the tick-input stream is some
successful ticks `pre`, then an exception `e`, then anything (`post`),
the worker executes exactly the ticks of `pre`, logs the crash once, and
terminates: the result does not depend on `post`, so no tick is retried
and the loop never resumes after the first exception. -/
theorem C7_worker_fail_stop (pre : List (Nat × Rat)) (e : String)
    (post : List TickInput) (s : SenderState) (log : List LogRecord) :
    runWorker
        (pre.map (fun p => TickInput.ok p.1 p.2) ++ TickInput.raise e :: post) s log =
      (applyTicks pre s,
       log ++ [{ level := "ERROR", msg := "INGRESS: Worker crashed. Reason: " ++ e }]) := by
  induction pre generalizing s with
  | nil => rfl
  | cons hd tl ih => exact ih (workerTick hd.1 hd.2 s)

/-- C9: a failed cleanup run leaves the store untouched, logs the failure
(the run's log is the start record followed by the failure record — the
exception is converted to a log line, never propagated), makes exactly
one connection attempt (no retry or backoff within the run), and the cron
schedule's next fire time is exactly one day after the current one. -/
theorem C9_cleanup_failure_logged (e : String) (now : Nat) (st : Store) (n : Nat) :
    (daily_cleanup (ConnOutcome.err e) now st).1 = st ∧
    (daily_cleanup (ConnOutcome.err e) now st).2.1 =
      [{ level := "INFO",
         msg := "MAINTENANCE: Starting scheduled partition cleanup (Retention: 7 days)." },
       { level := "ERROR", msg := "MAINTENANCE: Cleanup failed. Reason: " ++ e }] ∧
    (daily_cleanup (ConnOutcome.err e) now st).2.2 = 1 ∧
    cronFireTime (n + 1) = cronFireTime n + nsPerDay := by
  refine ⟨rfl, rfl, rfl, ?_⟩
  simp [cronFireTime, Nat.succ_mul]

/-- C10 counterexample: a database failure is NOT rendered identically to
a day with no data — `fetch_data` shows an error banner, so the two pages
differ. -/
theorem C10_counterexample :
    selectedDayView (Except.error "connection refused") ≠ selectedDayView (Except.ok []) := by
  decide

/-- C10 (amended): on any query exception `fetch_data` returns an empty
DataFrame (plus an error banner) instead of propagating, and the KPI,
chart and PDF portion of the page then renders exactly the zero state of
an empty day — the error banner is the only difference between the two
renderings. -/
theorem C10_error_renders_zero_state (e : String) :
    fetch_data (Except.error e) = ([], ["Database Error: " ++ e]) ∧
    selectedDayView (Except.error e) =
      { kpiTotal := some "0.00", kpiAverage := some "0.00", kpiPeak := some "0.00",
        chart := false, pdfTotal := none, banners := ["Database Error: " ++ e],
        infoMsg := true } ∧
    { selectedDayView (Except.error e) with banners := [] } =
      selectedDayView (Except.ok []) :=
  ⟨rfl, rfl, rfl⟩

/-- C2 counterexample: the cleanup statement targets only the `metrics`
relation.  With `now` at day 10, a pulse row at timestamp 0 — strictly
older than the 7-day horizon — survives a successful cleanup run, so it
is false that no old row remains in all three relations. -/
theorem C2_counterexample :
    ((daily_cleanup ConnOutcome.ok (10 * nsPerDay)
        { metrics := [], pulse := [{ status := 1, ts := 0 }], events := [] }).1).pulse =
      [{ status := 1, ts := 0 }] ∧
    (0 : Nat) < retentionCutoff (10 * nsPerDay) := by
  refine ⟨rfl, ?_⟩
  simp [retentionCutoff, nsPerDay]

/-- C2 (amended): a successful cleanup run drops exactly the `metrics`
rows whose day partition starts before `now − 7d` (so no metrics row
older than the horizon survives, and every metrics row in a partition at
or after the horizon is kept); the `pulse` and `events` relations are
untouched; and the run is idempotent — a second run with the same `now`
changes nothing. -/
theorem C2_cleanup_metrics_only (now : Nat) (st : Store) :
    (∀ r : MetricRow, r ∈ ((daily_cleanup ConnOutcome.ok now st).1).metrics ↔
        r ∈ st.metrics ∧ retentionCutoff now ≤ dayFloor r.ts) ∧
    (∀ r : MetricRow, r ∈ ((daily_cleanup ConnOutcome.ok now st).1).metrics →
        retentionCutoff now ≤ r.ts) ∧
    ((daily_cleanup ConnOutcome.ok now st).1).pulse = st.pulse ∧
    ((daily_cleanup ConnOutcome.ok now st).1).events = st.events ∧
    (daily_cleanup ConnOutcome.ok now ((daily_cleanup ConnOutcome.ok now st).1)).1 =
      (daily_cleanup ConnOutcome.ok now st).1 := by
  have hmem : ∀ r : MetricRow, r ∈ ((daily_cleanup ConnOutcome.ok now st).1).metrics ↔
      r ∈ st.metrics ∧ retentionCutoff now ≤ dayFloor r.ts := by
    intro r
    simp [daily_cleanup, dropOldMetricPartitions, List.mem_filter]
  refine ⟨hmem, ?_, rfl, rfl, ?_⟩
  · intro r hr
    have h := (hmem r).mp hr
    calc retentionCutoff now ≤ dayFloor r.ts := h.2
      _ ≤ r.ts := Nat.div_mul_le_self r.ts nsPerDay
  · show ({ (daily_cleanup ConnOutcome.ok now st).1 with
        metrics := dropOldMetricPartitions now
          (((daily_cleanup ConnOutcome.ok now st).1).metrics) } : Store) = _
    have hfix : dropOldMetricPartitions now
        (((daily_cleanup ConnOutcome.ok now st).1).metrics) =
        ((daily_cleanup ConnOutcome.ok now st).1).metrics := by
      unfold dropOldMetricPartitions
      rw [List.filter_eq_self]
      intro r hr
      have h := (hmem r).mp hr
      simpa using h.2
    rw [hfix]

/-- C2 witness: a concrete instantiation of the amended cleanup theorem. -/
theorem C2_cleanup_metrics_only_witness :
    (∀ r : MetricRow, r ∈ ((daily_cleanup ConnOutcome.ok (10 * nsPerDay)
        { metrics := [{ val := 3, ts := 0 }, { val := 4, ts := 9 * nsPerDay }],
          pulse := [], events := [] }).1).metrics ↔
        r ∈ [({ val := 3, ts := 0 } : MetricRow), { val := 4, ts := 9 * nsPerDay }] ∧
          retentionCutoff (10 * nsPerDay) ≤ dayFloor r.ts) ∧
    (∀ r : MetricRow, r ∈ ((daily_cleanup ConnOutcome.ok (10 * nsPerDay)
        { metrics := [{ val := 3, ts := 0 }, { val := 4, ts := 9 * nsPerDay }],
          pulse := [], events := [] }).1).metrics →
        retentionCutoff (10 * nsPerDay) ≤ r.ts) ∧
    ((daily_cleanup ConnOutcome.ok (10 * nsPerDay)
        { metrics := [{ val := 3, ts := 0 }, { val := 4, ts := 9 * nsPerDay }],
          pulse := [], events := [] }).1).pulse = [] ∧
    ((daily_cleanup ConnOutcome.ok (10 * nsPerDay)
        { metrics := [{ val := 3, ts := 0 }, { val := 4, ts := 9 * nsPerDay }],
          pulse := [], events := [] }).1).events = [] ∧
    (daily_cleanup ConnOutcome.ok (10 * nsPerDay)
        ((daily_cleanup ConnOutcome.ok (10 * nsPerDay)
          { metrics := [{ val := 3, ts := 0 }, { val := 4, ts := 9 * nsPerDay }],
            pulse := [], events := [] }).1)).1 =
      (daily_cleanup ConnOutcome.ok (10 * nsPerDay)
        { metrics := [{ val := 3, ts := 0 }, { val := 4, ts := 9 * nsPerDay }],
          pulse := [], events := [] }).1 :=
  C2_cleanup_metrics_only (10 * nsPerDay)
    { metrics := [{ val := 3, ts := 0 }, { val := 4, ts := 9 * nsPerDay }],
      pulse := [], events := [] }

/-- The schema produced by one successful run of the init statements:
`metrics` created when absent, WAL bypass switched on. -/
def initializedSchema (s : Schema) : Schema :=
  { tables := if "metrics" ∈ s.tables then s.tables else s.tables ++ ["metrics"],
    metricsWalBypass := true }

/-- One successful pass of the init statements never errors and yields
`initializedSchema`. -/
theorem initStatements_ok (s : Schema) :
    initStatements s = Except.ok (initializedSchema s) := by
  unfold initStatements createTableIfNotExists alterMetricsBypassWal initializedSchema
  by_cases h : "metrics" ∈ s.tables <;> simp [h, Except.bind]

/-- C6: schema initialization is idempotent.  The first pass succeeds
(no error) producing `initializedSchema s`; running the statements again
against that already-initialized schema also succeeds and returns exactly
the same schema — no error is raised, no duplicate `metrics` table is
created, and the set of schema objects after the second run equals the
set after the first run. -/
theorem C6_init_idempotent (s : Schema) :
    initStatements s = Except.ok (initializedSchema s) ∧
    initStatements (initializedSchema s) = Except.ok (initializedSchema s) ∧
    initializedSchema (initializedSchema s) = initializedSchema s := by
  have hm : "metrics" ∈ (initializedSchema s).tables := by
    unfold initializedSchema
    by_cases h : "metrics" ∈ s.tables <;> simp [h]
  have hm' : "metrics" ∈ (if "metrics" ∈ s.tables then s.tables else s.tables ++ ["metrics"]) :=
    hm
  have hfix : initializedSchema (initializedSchema s) = initializedSchema s := by
    unfold initializedSchema
    rw [if_pos hm']
  refine ⟨initStatements_ok s, ?_, hfix⟩
  rw [initStatements_ok (initializedSchema s), hfix]

/-- C8: when no stored metric row falls in the selected day's window, the
range query returns the empty result set and the dashboard renders the
defined zero state: total, average and peak cards all read "0.00", no
chart is drawn and no PDF report/download control is offered. -/
theorem C8_zero_state (a b : Nat) (rows : List MetricRow)
    (h : ∀ r ∈ rows, inRange a b r.ts = false) :
    dayQuery a b rows = [] ∧
    selectedDayView (Except.ok (dayQuery a b rows)) =
      { kpiTotal := some "0.00", kpiAverage := some "0.00", kpiPeak := some "0.00",
        chart := false, pdfTotal := none, banners := [], infoMsg := true } := by
  have hsel : rows.filter (fun r => inRange a b r.ts) = [] := by
    rw [List.filter_eq_nil_iff]
    intro r hr
    simp [h r hr]
  have hq : dayQuery a b rows = [] := by
    unfold dayQuery
    rw [hsel]
    rfl
  exact ⟨hq, by rw [hq]; rfl⟩

/-- C8 witness: a store whose only metric row lies outside the selected
window renders the zero state. -/
theorem C8_zero_state_witness :
    dayQuery 0 10 [{ val := 5, ts := 999 }] = [] ∧
    selectedDayView (Except.ok (dayQuery 0 10 [{ val := 5, ts := 999 }])) =
      { kpiTotal := some "0.00", kpiAverage := some "0.00", kpiPeak := some "0.00",
        chart := false, pdfTotal := none, banners := [], infoMsg := true } :=
  C8_zero_state 0 10 [{ val := 5, ts := 999 }] (by decide)

/-- If no connection attempt ever succeeds, the retry loop never breaks,
whatever bound we unfold it to. -/
theorem init_db_from_none (avail : Nat → Bool) (s : Schema)
    (h : ∀ j, avail j = false) :
    ∀ fuel k, init_db_from avail s fuel k = none := by
  intro fuel
  induction fuel with
  | zero => intro k; rfl
  | succ f ih =>
      intro k
      unfold init_db_from
      rw [h k, ih (k + 1)]
      simp

/-- If the first successful connection attempt is attempt `k`, the loop
breaks there: it runs the init statements once and has slept 2 seconds
per failed attempt before it. -/
theorem init_db_from_success (avail : Nat → Bool) (s : Schema) :
    ∀ fuel k0 k, k0 ≤ k → k - k0 < fuel →
      (∀ j, k0 ≤ j → j < k → avail j = false) → avail k = true →
      init_db_from avail s fuel k0 =
        some (initializedSchema s, k, retryDelaySeconds * (k - k0)) := by
  intro fuel
  induction fuel with
  | zero => intro k0 k _ hf _ _; omega
  | succ f ih =>
      intro k0 k hle hf hbefore hk
      unfold init_db_from
      by_cases heq : k0 = k
      · subst heq
        rw [hk, initStatements_ok s]
        simp
      · have hlt : k0 < k := Nat.lt_of_le_of_ne hle heq
        rw [hbefore k0 (Nat.le_refl k0) hlt]
        simp only [Bool.false_eq_true, if_false]
        rw [ih (k0 + 1) k hlt (by omega) (fun j hj hjk => hbefore j (by omega) hjk) hk]
        have harith : retryDelaySeconds + retryDelaySeconds * (k - (k0 + 1)) =
            retryDelaySeconds * (k - k0) := by
          have h2 : retryDelaySeconds = 2 := rfl
          rw [h2]
          omega
        simp only []
        rw [harith]

/-- C5: startup schema initialization is an unbounded fixed-delay retry
gate.  If the store never becomes available, `init_db` never terminates
(it returns `none` for every unfolding bound `fuel`); if the first
successful connection is attempt `k`, it terminates having slept exactly
2 seconds (`retryDelaySeconds`) per failed attempt; and `lifespan` runs
`init_db` as its first startup step, before the sender is opened, the
cleanup scheduler started, the worker launched or the app served. -/
theorem C5_startup_retry_gate (availN availS : Nat → Bool) (fuel fuelS k : Nat)
    (s sS : Schema)
    (hnever : ∀ j, availN j = false)
    (hbefore : ∀ j, j < k → availS j = false)
    (hk : availS k = true) (hfuel : k < fuelS) :
    init_db fuel availN s = none ∧
    init_db fuelS availS sS = some (initializedSchema sS, k, retryDelaySeconds * k) ∧
    retryDelaySeconds = 2 ∧
    lifespanStartup.head? = some StartupStep.initDb := by
  refine ⟨init_db_from_none availN s hnever fuel 0, ?_, rfl, rfl⟩
  have h := init_db_from_success availS sS fuelS 0 k (Nat.zero_le k) (by omega)
    (fun j _ hjk => hbefore j hjk) hk
  simpa [init_db] using h

/-- C5 witness: with a store that never comes up the gate loops past any
bound; with a store available immediately it completes at attempt 0 with
no sleep, and `init_db` is the first lifespan step. -/
theorem C5_startup_retry_gate_witness :
    init_db 5 (fun _ => false) { tables := [], metricsWalBypass := false } = none ∧
    init_db 1 (fun _ => true) { tables := [], metricsWalBypass := false } =
      some (initializedSchema { tables := [], metricsWalBypass := false }, 0,
        retryDelaySeconds * 0) ∧
    retryDelaySeconds = 2 ∧
    lifespanStartup.head? = some StartupStep.initDb :=
  C5_startup_retry_gate (fun _ => false) (fun _ => true) 5 1 0
    { tables := [], metricsWalBypass := false } { tables := [], metricsWalBypass := false }
    (fun _ => rfl) (fun j hj => absurd hj (Nat.not_lt_zero j)) rfl Nat.zero_lt_one

/-- Fiberwise summation: summing, over a duplicate-free list of hour
buckets that covers every row, the value-sums of each bucket's rows gives
the value-sum of the whole list. -/
theorem sum_groups_by_hour (keys : List Nat) (l : List MetricRow)
    (hnd : keys.Nodup) (hcov : ∀ r ∈ l, hourFloor r.ts ∈ keys) :
    (keys.map (fun h =>
        ((l.filter (fun r => hourFloor r.ts == h)).map (fun r => r.val)).sum)).sum
      = (l.map (fun r => r.val)).sum := by
  induction keys generalizing l with
  | nil =>
      cases l with
      | nil => simp
      | cons r t => exact absurd (hcov r (List.mem_cons_self r t)) (List.not_mem_nil _)
  | cons k ks ih =>
      have hk_not : k ∉ ks := (List.nodup_cons.mp hnd).1
      have hnd' : ks.Nodup := (List.nodup_cons.mp hnd).2
      have hcov2 : ∀ r ∈ l.filter (fun r => !(hourFloor r.ts == k)),
          hourFloor r.ts ∈ ks := by
        intro r hr
        have hmem := List.mem_of_mem_filter hr
        have hne : ¬hourFloor r.ts = k := by
          have := List.of_mem_filter hr
          simpa using this
        rcases List.mem_cons.mp (hcov r hmem) with h | h
        · exact absurd h hne
        · exact h
      have hgroups : ∀ h ∈ ks,
          l.filter (fun r => hourFloor r.ts == h) =
            (l.filter (fun r => !(hourFloor r.ts == k))).filter
              (fun r => hourFloor r.ts == h) := by
        intro h hh
        have hne : h ≠ k := fun e => hk_not (e ▸ hh)
        rw [List.filter_filter]
        apply List.filter_congr
        intro r _
        cases hb : (hourFloor r.ts == h) with
        | true =>
            have hrh : hourFloor r.ts = h := by simpa using hb
            have hrk : (hourFloor r.ts == k) = false := by
              simp [hrh, hne]
            simp [hrk]
        | false => simp
      have hmapcongr :
          ks.map (fun h =>
              ((l.filter (fun r => hourFloor r.ts == h)).map (fun r => r.val)).sum) =
            ks.map (fun h =>
              (((l.filter (fun r => !(hourFloor r.ts == k))).filter
                  (fun r => hourFloor r.ts == h)).map (fun r => r.val)).sum) := by
        apply List.map_congr_left
        intro h hh
        rw [hgroups h hh]
      have hsplit :
          ((l.filter (fun r => hourFloor r.ts == k)).map (fun r => r.val)).sum +
            ((l.filter (fun r => !(hourFloor r.ts == k))).map (fun r => r.val)).sum =
          (l.map (fun r => r.val)).sum := by
        have hperm := List.filter_append_perm (fun r => hourFloor r.ts == k) l
        have hsum := (hperm.map (fun r => r.val)).sum_eq
        simpa [List.map_append, List.sum_append] using hsum
      calc ((k :: ks).map (fun h =>
              ((l.filter (fun r => hourFloor r.ts == h)).map (fun r => r.val)).sum)).sum
          = ((l.filter (fun r => hourFloor r.ts == k)).map (fun r => r.val)).sum +
              (ks.map (fun h =>
                ((l.filter (fun r => hourFloor r.ts == h)).map (fun r => r.val)).sum)).sum := by
            simp
        _ = ((l.filter (fun r => hourFloor r.ts == k)).map (fun r => r.val)).sum +
              ((l.filter (fun r => !(hourFloor r.ts == k))).map (fun r => r.val)).sum := by
            rw [hmapcongr,
              ih (l.filter (fun r => !(hourFloor r.ts == k))) hnd' hcov2]
        _ = (l.map (fun r => r.val)).sum := hsplit

/-- C4 counterexample: for a day whose query returns one reading, the
rendered page carries no total/average/peak headline cards at all (they
exist only in the zero state), so in particular no average or peak equal
to the claimed aggregates is displayed. -/
theorem C4_counterexample :
    dayQuery 0 0 [{ val := 5, ts := 0 }] ≠ [] ∧
    (renderDay (dayQuery 0 0 [{ val := 5, ts := 0 }]) []).kpiTotal = none ∧
    (renderDay (dayQuery 0 0 [{ val := 5, ts := 0 }]) []).kpiAverage = none ∧
    (renderDay (dayQuery 0 0 [{ val := 5, ts := 0 }]) []).kpiPeak = none := by
  decide

/-- C4 (amended): for a selected day whose range query returns a
non-empty result, the dashboard renders the chart and the PDF download
section, and the only headline number produced — the PDF report's
`Total Production` — equals the sum of the returned hourly aggregates,
which equals the exact sum of all metric values inside the query window;
no average or peak (and no KPI cards at all) are computed or rendered in
this branch. -/
theorem C4_total_is_exact_sum (a b : Nat) (rows : List MetricRow)
    (hne : dayQuery a b rows ≠ []) :
    ((dayQuery a b rows).map (fun r => r.hourly_val)).sum =
      ((rows.filter (fun r => inRange a b r.ts)).map (fun r => r.val)).sum ∧
    (renderDay (dayQuery a b rows) []).pdfTotal =
      some (((rows.filter (fun r => inRange a b r.ts)).map (fun r => r.val)).sum) ∧
    (renderDay (dayQuery a b rows) []).chart = true ∧
    (renderDay (dayQuery a b rows) []).kpiTotal = none ∧
    (renderDay (dayQuery a b rows) []).kpiAverage = none ∧
    (renderDay (dayQuery a b rows) []).kpiPeak = none := by
  have htotal : ((dayQuery a b rows).map (fun r => r.hourly_val)).sum =
      ((rows.filter (fun r => inRange a b r.ts)).map (fun r => r.val)).sum := by
    unfold dayQuery
    rw [List.map_map]
    have hcov : ∀ r ∈ rows.filter (fun r => inRange a b r.ts),
        hourFloor r.ts ∈ ((rows.filter (fun r => inRange a b r.ts)).map
          (fun r => hourFloor r.ts)).dedup := by
      intro r hr
      rw [List.mem_dedup]
      exact List.mem_map_of_mem _ hr
    have hnd := List.nodup_dedup
      ((rows.filter (fun r => inRange a b r.ts)).map (fun r => hourFloor r.ts))
    exact sum_groups_by_hour _ _ hnd hcov
  have hbranch : (dayQuery a b rows).isEmpty = false := by
    cases hq : dayQuery a b rows with
    | nil => exact absurd hq hne
    | cons x xs => rfl
  refine ⟨htotal, ?_, ?_, ?_, ?_, ?_⟩ <;>
    simp [renderDay, hbranch, htotal]

/-- C4 witness: one reading of value 5 at timestamp 0, queried over the
window `[0, 0]`. -/
theorem C4_total_is_exact_sum_witness :
    ((dayQuery 0 0 [{ val := 5, ts := 0 }]).map (fun r => r.hourly_val)).sum =
      (([({ val := 5, ts := 0 } : MetricRow)].filter
          (fun r => inRange 0 0 r.ts)).map (fun r => r.val)).sum ∧
    (renderDay (dayQuery 0 0 [{ val := 5, ts := 0 }]) []).pdfTotal =
      some ((([({ val := 5, ts := 0 } : MetricRow)].filter
          (fun r => inRange 0 0 r.ts)).map (fun r => r.val)).sum) ∧
    (renderDay (dayQuery 0 0 [{ val := 5, ts := 0 }]) []).chart = true ∧
    (renderDay (dayQuery 0 0 [{ val := 5, ts := 0 }]) []).kpiTotal = none ∧
    (renderDay (dayQuery 0 0 [{ val := 5, ts := 0 }]) []).kpiAverage = none ∧
    (renderDay (dayQuery 0 0 [{ val := 5, ts := 0 }]) []).kpiPeak = none :=
  C4_total_is_exact_sum 0 0 [{ val := 5, ts := 0 }] (by decide)

end FlowSentinel
